import Mathlib

/-!
Verification of the cluely-oss chat relay and stream consumer.

This file shallowly embeds the two pieces of the repository that carry
behaviour worth specifying:

* the Zustand chat store of `src/renderer/src/App.tsx` / `chatStore`
  (`addMessage`, `startStreaming`, `appendStreamContent`, `finishStreaming`)
  together with the renderer's stream-error handler `handleStreamError`;
* the `LLMService` relay (`src/src/llm-service.ts` and the streaming
  variant): request construction, mock and error fallback strings, and the
  line-buffered SSE parsing loop of `callOpenAIStream`.

State-changing TypeScript methods become pure state-to-state functions;
the network is an explicit outcome parameter (`Except` / chunk list plus
optional error); `JSON.parse` is modelled by an executable fuel-based JSON
parser over `List Char`.
-/

namespace Cluely

/-! ## Chat store (renderer UI state) -/

/-- Message role, the `type` field of `ChatMessage` in `chatStore`. -/
inductive Role where
  | user
  | assistant
deriving DecidableEq, Repr

/-- A committed chat message.  The source's `id`/`timestamp` fields are
nondeterministic (`Date.now`, `Math.random`) and carry no behaviour, so the
embedding keeps the behaviourally relevant `content` and `type` fields. -/
structure ChatMsg where
  content : String
  type : Role
deriving DecidableEq, Repr

/-- The Zustand store state of `chatStore` (fields the store declares). -/
structure ChatState where
  messages : List ChatMsg
  inputValue : String
  placeholder : String
  isStreaming : Bool
  streamContent : String
  isLoading : Bool
  isProcessing : Bool
  currentScreenData : Option String
  isScreenCaptured : Bool
deriving DecidableEq, Repr

/-- Whitespace recognised by JavaScript's `String.prototype.trim` (the
characters that occur in practice; an executable model of the builtin). -/
def jsWhitespace (c : Char) : Bool :=
  c = ' ' || c = '\t' || c = '\n' || c = '\r' || c = '\x0B' || c = '\x0C'

/-- Executable model of JavaScript's `String.prototype.trim`: drop leading
and trailing whitespace. -/
def jsTrim (s : String) : String :=
  String.mk (((s.data.dropWhile jsWhitespace).reverse.dropWhile jsWhitespace).reverse)

/-- `addMessage(content, type)`: appends one message to the log. -/
def addMessage (content : String) (type : Role) (s : ChatState) : ChatState :=
  { s with messages := s.messages ++ [{ content := content, type := type }] }

/-- `startStreaming()`: `set({ isStreaming: true, streamContent: '' })`. -/
def startStreaming (s : ChatState) : ChatState :=
  { s with isStreaming := true, streamContent := "" }

/-- `appendStreamContent(chunk)`:
`set(state => ({ streamContent: state.streamContent + chunk }))`.
Note the source appends unconditionally; it does not test `isStreaming`. -/
def appendStreamContent (chunk : String) (s : ChatState) : ChatState :=
  { s with streamContent := s.streamContent ++ chunk }

/-- `finishStreaming()`: trims the buffer, clears the streaming flags, then
commits the trimmed buffer as an assistant message when it is non-empty
(JS truthiness of a string is non-emptiness). -/
def finishStreaming (s : ChatState) : ChatState :=
  let finalContent := jsTrim s.streamContent
  let s1 := { s with isStreaming := false, streamContent := "",
                     isLoading := false, isProcessing := false }
  if finalContent = "" then s1 else addMessage finalContent Role.assistant s1

/-- The fixed fallback text used by the renderer's stream-error handler. -/
def streamErrorText : String :=
  "Sorry, there was an error processing your request."

/-- `handleStreamError` in `App.tsx`: `addMessage('Sorry, ...', 'assistant')`
followed by `finishStreaming()`. -/
def handleStreamError (s : ChatState) : ChatState :=
  finishStreaming (addMessage streamErrorText Role.assistant s)

/-- Feeding a whole chunk sequence to the store via `appendStreamContent`. -/
def feedChunks (s : ChatState) (C : List String) : ChatState :=
  C.foldl (fun st c => appendStreamContent c st) s

/-- Concatenation of a chunk sequence. -/
def concatChunks (C : List String) : String :=
  C.foldl (· ++ ·) ""

/-- A concrete initial store state (the store's declared initial values). -/
def initialState : ChatState :=
  { messages := []
    inputValue := ""
    placeholder := "Ask me anything... (Enter to chat, ⌘+Enter to capture screen)"
    isStreaming := false
    streamContent := ""
    isLoading := false
    isProcessing := false
    currentScreenData := none
    isScreenCaptured := false }

/-! ## LLM service (`LLMService` in `llm-service.ts`) -/

/-- One part of a multimodal user message (`{type, text?, image_url?}`). -/
inductive MsgPart where
  | text (t : String)
  | imageUrl (url : String)
deriving DecidableEq, Repr

/-- `OpenAIMessage`: role plus either a plain string content or a list of
multimodal parts. -/
structure OpenAIMessage where
  role : String
  content : String ⊕ List MsgPart
deriving DecidableEq, Repr

/-- `choices[i].message` of a non-streaming response. -/
structure RespMessage where
  content : String
deriving DecidableEq, Repr

/-- `choices[i]` of a non-streaming response. -/
structure RespChoice where
  message : RespMessage
deriving DecidableEq, Repr

/-- Non-streaming `OpenAIResponse` body. -/
structure OpenAIResponse where
  choices : List RespChoice
deriving DecidableEq, Repr

/-- The runtime error shape that `getErrorResponse` inspects: whether
`axios.isAxiosError(error)` holds, `error.response?.status`, and
`error.code`. -/
structure JsError where
  isAxiosError : Bool
  status : Option Nat
  code : Option String
deriving DecidableEq, Repr

/-- The service state: `apiKey` and `model` fields of `LLMService`. -/
structure LLMService where
  apiKey : String
  model : String
deriving DecidableEq, Repr

/-- The fixed `baseURL` field. -/
def baseURL : String := "https://api.openai.com/v1"

/-- JavaScript `e || d` on an optional string environment variable:
an absent or empty value falls back to the default. -/
def jsOrDefault (e : Option String) (d : String) : String :=
  match e with
  | none => d
  | some s => if s = "" then d else s

/-- The message of the `Error` thrown by the constructor when no API key is
configured. -/
def noKeyErrorText : String :=
  "OpenAI API key not found. LLM functionality will use mock responses."

/-- The `LLMService` constructor: reads `OPENAI_API_KEY` and `OPENAI_MODEL`
from the environment (passed explicitly here) and THROWS when the key is
absent or empty — modelled as `Except.error` carrying the thrown message. -/
def LLMService.create (envKey envModel : Option String) : Except String LLMService :=
  let apiKey := jsOrDefault envKey ""
  let model := jsOrDefault envModel "gpt-4o"
  if apiKey = "" then Except.error noKeyErrorText
  else Except.ok { apiKey := apiKey, model := model }

/-- The system prompt of `buildMessages` (verbatim, including the template
literal's embedded indentation). -/
def systemPrompt : String :=
  "You are an intelligent overlay assistant that helps users understand and interact with their screen content. \n        You have access to what the user is currently seeing on their screen. \n        Provide helpful, concise, and actionable responses.\n        If you can see screen content, analyze it and provide relevant insights.\n        Keep responses brief but informative."

/-- `buildMessages(userMessage, screenData?)`. -/
def buildMessages (userMessage : String) (screenData : Option String) :
    List OpenAIMessage :=
  let first : OpenAIMessage := { role := "system", content := Sum.inl systemPrompt }
  match screenData with
  | some url =>
      [first,
       { role := "user",
         content := Sum.inr [MsgPart.text userMessage, MsgPart.imageUrl url] }]
  | none => [first, { role := "user", content := Sum.inl userMessage }]

/-- `getMockResponse(userMessage, hasScreenData)`: the four `responses`
entries joined with `'\n\n'` (the `join` is inlined as concatenation). -/
def getMockResponse (userMessage : String) (hasScreenData : Bool) : String :=
  "I understand you\x27re asking: \"" ++ userMessage ++ "\"" ++ "\n\n" ++
  (if hasScreenData then
     "I can see your screen content and would analyze it to provide relevant insights if I had access to a real LLM API."
   else
     "I\x27d be happy to help with that question if I had access to a real LLM API.") ++
  "\n\n" ++
  "To enable full functionality, please add your OpenAI API key to the environment variables." ++
  "\n\n" ++
  "You can copy the env.example file to .env and add your API key there."

/-- `getErrorResponse(error)`: maps a failure to the fixed user-facing
string, in the source's test order (401, 404, 429, 400, network codes,
default). -/
def getErrorResponse (svc : LLMService) (e : JsError) : String :=
  if e.isAxiosError then
    if e.status = some 401 then
      "Invalid API key. Please check your OpenAI API key in the environment variables."
    else if e.status = some 404 then
      "Model \"" ++ svc.model ++ "\" not found. Try using \"gpt-4o\" or \"gpt-4\" instead. Update your OPENAI_MODEL in the .env file."
    else if e.status = some 429 then
      "Rate limit exceeded. Please try again in a moment."
    else if e.status = some 400 then
      "Bad request. The image might be too large or in an unsupported format."
    else if e.code = some "ENOTFOUND" || e.code = some "ECONNREFUSED" then
      "Network error. Please check your internet connection."
    else "An unexpected error occurred. Please try again."
  else "An unexpected error occurred. Please try again."

/-- The HTTP request `callOpenAI` / `callOpenAIStream` build: URL, method,
JSON body fields, headers and timeout. -/
structure HttpRequest where
  url : String
  method : String
  bodyModel : String
  bodyMessages : List OpenAIMessage
  bodyMaxTokens : Nat
  bodyTemperature : ℚ
  bodyStream : Option Bool
  authorizationHeader : String
  contentTypeHeader : String
  timeoutMs : Nat
deriving DecidableEq, Repr

/-- The request built by `callOpenAI` (non-streaming; no `stream` field). -/
def callOpenAIRequest (svc : LLMService) (messages : List OpenAIMessage) :
    HttpRequest :=
  { url := baseURL ++ "/chat/completions"
    method := "POST"
    bodyModel := svc.model
    bodyMessages := messages
    bodyMaxTokens := 500
    bodyTemperature := 7 / 10
    bodyStream := none
    authorizationHeader := "Bearer " ++ svc.apiKey
    contentTypeHeader := "application/json"
    timeoutMs := 30000 }

/-- The request built by `callOpenAIStream` (adds `stream: true` and asks
for a streamed response). -/
def callOpenAIStreamRequest (svc : LLMService) (messages : List OpenAIMessage) :
    HttpRequest :=
  { callOpenAIRequest svc messages with bodyStream := some true }

/-- `sendMessage(userMessage, screenData?)`.  The network is an explicit
outcome: `Except.ok` is the parsed response of the awaited `axios.post`,
`Except.error` is a thrown/rejected error.  The `catch` branch returns
`getErrorResponse`; an ok response returns
`choices[0]?.message?.content || 'Sorry, I could not generate a response.'`. -/
def sendMessage (svc : LLMService) (userMessage : String)
    (screenData : Option String) (outcome : Except JsError OpenAIResponse) :
    String :=
  if svc.apiKey = "" then getMockResponse userMessage screenData.isSome
  else
    match outcome with
    | Except.ok r =>
        match r.choices.head? with
        | some c =>
            if c.message.content = "" then "Sorry, I could not generate a response."
            else c.message.content
        | none => "Sorry, I could not generate a response."
    | Except.error e => getErrorResponse svc e

/-- `sendMessageStream(userMessage, screenData?)`: the overall chunk
sequence the generator yields.  `chunks` are the contents yielded by
`callOpenAIStream` before the stream either completes (`err = none`) or
throws (`err = some e`); a thrown error is caught and one
`getErrorResponse` string is yielded, then the generator ends. -/
def sendMessageStream (svc : LLMService) (userMessage : String)
    (screenData : Option String) (chunks : List String) (err : Option JsError) :
    List String :=
  if svc.apiKey = "" then [getMockResponse userMessage screenData.isSome]
  else
    match err with
    | none => chunks
    | some e => chunks ++ [getErrorResponse svc e]

/-! ## Streaming transport parsing (`callOpenAIStream` loop)

The loop reads transport chunks, keeps a carry-over `buffer`, splits on
newlines holding back the trailing incomplete line, and for each complete
line: ignores it unless it starts with `data: `; stops at payload
`[DONE]`; otherwise `JSON.parse`s the payload and yields
`choices[0]?.delta?.content` when it is a non-empty string, skipping
malformed payloads.  `JSON.parse` is modelled by an executable fuel-based
recursive-descent parser over `List Char`. -/

/-- A parsed JSON value.  Numbers are kept as uninterpreted lexemes: the
parser never inspects numeric values and modelling IEEE doubles is not
needed for any property here. -/
inductive Json where
  | null : Json
  | bool : Bool → Json
  | num : List Char → Json
  | str : List Char → Json
  | arr : List Json → Json
  | obj : List (List Char × Json) → Json

/-- JSON insignificant whitespace. -/
def jsonWs (c : Char) : Bool :=
  c = ' ' || c = '\t' || c = '\n' || c = '\r'

/-- Skip insignificant whitespace. -/
def skipWs (cs : List Char) : List Char :=
  cs.dropWhile jsonWs

/-- Value of one hexadecimal digit. -/
def hexVal (c : Char) : Option Nat :=
  if c.isDigit then some (c.toNat - 48)
  else if 'a' ≤ c && c ≤ 'f' then some (c.toNat - 87)
  else if 'A' ≤ c && c ≤ 'F' then some (c.toNat - 55)
  else none

/-- Single-character JSON string escapes. -/
def escChar (e : Char) : Option Char :=
  if e = '"' then some '"'
  else if e = '\\' then some '\\'
  else if e = '/' then some '/'
  else if e = 'n' then some '\n'
  else if e = 't' then some '\t'
  else if e = 'r' then some '\r'
  else if e = 'b' then some '\x08'
  else if e = 'f' then some '\x0C'
  else none

/-- Parse the body of a JSON string after the opening quote; returns the
decoded characters and the input following the closing quote. -/
def parseStringBody : List Char → Option (List Char × List Char)
  | [] => none
  | '"' :: rest => some ([], rest)
  | '\\' :: rest =>
    match rest with
    | 'u' :: h1 :: h2 :: h3 :: h4 :: rest2 =>
      match hexVal h1, hexVal h2, hexVal h3, hexVal h4 with
      | some a, some b, some c, some d =>
        match parseStringBody rest2 with
        | some (s, r) => some (Char.ofNat (((a * 16 + b) * 16 + c) * 16 + d) :: s, r)
        | none => none
      | _, _, _, _ => none
    | e :: rest2 =>
      match escChar e with
      | some ch =>
        match parseStringBody rest2 with
        | some (s, r) => some (ch :: s, r)
        | none => none
      | none => none
    | [] => none
  | c :: rest =>
    match parseStringBody rest with
    | some (s, r) => some (c :: s, r)
    | none => none

/-- Characters a numeric lexeme may contain. -/
def numChar (c : Char) : Bool :=
  c.isDigit || c = '-' || c = '+' || c = '.' || c = 'e' || c = 'E'

mutual

/-- Parse one JSON value (fuel-bounded recursive descent). -/
def parseValue : Nat → List Char → Option (Json × List Char)
  | 0, _ => none
  | fuel + 1, cs =>
    match skipWs cs with
    | [] => none
    | c :: rest =>
      if c = '"' then
        match parseStringBody rest with
        | some (s, r) => some (Json.str s, r)
        | none => none
      else if c = '\x7b' then
        match skipWs rest with
        | '\x7d' :: r => some (Json.obj [], r)
        | _ =>
          match parseMembers fuel rest with
          | some (ms, r) => some (Json.obj ms, r)
          | none => none
      else if c = '[' then
        match skipWs rest with
        | ']' :: r => some (Json.arr [], r)
        | _ =>
          match parseElems fuel rest with
          | some (vs, r) => some (Json.arr vs, r)
          | none => none
      else if c = 't' then
        match rest with
        | 'r' :: 'u' :: 'e' :: r => some (Json.bool true, r)
        | _ => none
      else if c = 'f' then
        match rest with
        | 'a' :: 'l' :: 's' :: 'e' :: r => some (Json.bool false, r)
        | _ => none
      else if c = 'n' then
        match rest with
        | 'u' :: 'l' :: 'l' :: r => some (Json.null, r)
        | _ => none
      else if c = '-' || c.isDigit then
        some (Json.num ((c :: rest).takeWhile numChar),
              (c :: rest).dropWhile numChar)
      else none

/-- Parse the elements of a non-empty array (after the opening bracket). -/
def parseElems : Nat → List Char → Option (List Json × List Char)
  | 0, _ => none
  | fuel + 1, cs =>
    match parseValue fuel cs with
    | none => none
    | some (v, rest) =>
      match skipWs rest with
      | ',' :: rest2 =>
        match parseElems fuel rest2 with
        | some (vs, r) => some (v :: vs, r)
        | none => none
      | ']' :: rest2 => some ([v], rest2)
      | _ => none

/-- Parse the members of a non-empty object (after the opening brace). -/
def parseMembers : Nat → List Char → Option (List (List Char × Json) × List Char)
  | 0, _ => none
  | fuel + 1, cs =>
    match skipWs cs with
    | '"' :: rest =>
      match parseStringBody rest with
      | none => none
      | some (key, rest2) =>
        match skipWs rest2 with
        | ':' :: rest3 =>
          match parseValue fuel rest3 with
          | none => none
          | some (v, rest4) =>
            match skipWs rest4 with
            | ',' :: rest5 =>
              match parseMembers fuel rest5 with
              | some (ms, r) => some ((key, v) :: ms, r)
              | none => none
            | '\x7d' :: rest5 => some ([(key, v)], rest5)
            | _ => none
        | _ => none
    | _ => none

end

/-- `JSON.parse`: parse one value and require only whitespace to remain. -/
def jsonParse (cs : List Char) : Option Json :=
  match parseValue (2 * cs.length + 2) cs with
  | some (j, rest) => if skipWs rest = [] then some j else none
  | none => none

/-- Object field lookup with JavaScript `JSON.parse` duplicate-key
semantics: the LAST occurrence of a key wins. -/
def lookupField : List (List Char × Json) → List Char → Option Json
  | [], _ => none
  | (k, v) :: rest, key =>
    match lookupField rest key with
    | some v2 => some v2
    | none => if k = key then some v else none

/-- `parsed.choices[0]?.delta?.content` on the declared
`OpenAIStreamChunk` shape (`{choices: [{delta: {content?: string}}]}`):
`some s` exactly when the parsed value is an object whose `choices` is a
non-empty array whose first element is an object whose `delta` is an
object whose `content` is a JSON string `s`. -/
def chunkContent (j : Json) : Option (List Char) :=
  match j with
  | Json.obj fields =>
    match lookupField fields "choices".toList with
    | some (Json.arr (first :: _)) =>
      match first with
      | Json.obj cf =>
        match lookupField cf "delta".toList with
        | some (Json.obj df) =>
          match lookupField df "content".toList with
          | some (Json.str s) => some s
          | _ => none
        | _ => none
      | _ => none
    | _ => none
  | _ => none

/-- The provider's data-line marker `'data: '`. -/
def dataMarker : List Char := "data: ".toList

/-- The end-of-stream sentinel `'[DONE]'`. -/
def doneMarker : List Char := "[DONE]".toList

/-- `line.startsWith('data: ')` combined with `line.slice(6)`: the payload
after the marker, when the line carries one. -/
def dropDataMarker : List Char → Option (List Char)
  | 'd' :: 'a' :: 't' :: 'a' :: ':' :: ' ' :: rest => some rest
  | _ => none

/-- What one complete line contributes to the streamed sequence. -/
inductive LineResult where
  | skip : LineResult
  | emit : List Char → LineResult
  | done : LineResult
deriving DecidableEq, Repr

/-- Processing of one complete line in the `callOpenAIStream` loop:
non-`data: ` lines are ignored; payload `[DONE]` returns from the
generator; other payloads are JSON-parsed and `choices[0]?.delta?.content`
is yielded when it is a non-empty string (`if (content)`); anything else
— malformed JSON included — is skipped. -/
def lineResult (line : List Char) : LineResult :=
  match dropDataMarker line with
  | none => LineResult.skip
  | some data =>
    if data = doneMarker then LineResult.done
    else
      match jsonParse data with
      | none => LineResult.skip
      | some j =>
        match chunkContent j with
        | some s => if s = [] then LineResult.skip else LineResult.emit s
        | none => LineResult.skip

/-- Run the inner `for (const line of lines)` loop over a list of complete
lines: collected yields plus whether the generator returned (`[DONE]`). -/
def runLines : List (List Char) → List (List Char) × Bool
  | [] => ([], false)
  | l :: ls =>
    match lineResult l with
    | LineResult.done => ([], true)
    | LineResult.skip => runLines ls
    | LineResult.emit s =>
      let r := runLines ls
      (s :: r.1, r.2)

/-- One character prepended to an already-split tail: a newline opens a
fresh (empty) complete line, any other character extends the first
complete line, or the trailing buffer when no complete line exists. -/
def stepSplit (c : Char) (r : List (List Char) × List Char) :
    List (List Char) × List Char :=
  if c = '\n' then (List.nil :: r.1, r.2)
  else
    match r.1 with
    | [] => ([], c :: r.2)
    | l :: ls => ((c :: l) :: ls, r.2)

/-- `lines = buffer.split('\n'); buffer = lines.pop() || ''`: the complete
lines of a char sequence and the trailing incomplete line. -/
def splitChunk : List Char → List (List Char) × List Char
  | [] => ([], [])
  | c :: rest => stepSplit c (splitChunk rest)

/-- How the split of a concatenation combines the splits of its parts. -/
def combineSplit (p q : List (List Char) × List Char) :
    List (List Char) × List Char :=
  match q.1 with
  | [] => (p.1, p.2 ++ q.2)
  | l :: ls => (p.1 ++ (p.2 ++ l) :: ls, q.2)

/-- The `for await (const chunk of stream)` loop of `callOpenAIStream`:
carry the line buffer across transport chunks, process each chunk's
complete lines, stop feeding once the generator returned. -/
def runStreamAux : List Char → List (List Char) → List (List Char) × Bool
  | _, [] => ([], false)
  | buf, chunk :: rest =>
    let sp := splitChunk (buf ++ chunk)
    let r1 := runLines sp.1
    if r1.2 then (r1.1, true)
    else
      let r2 := runStreamAux sp.2 rest
      (r1.1 ++ r2.1, r2.2)

/-- The whole streaming loop, started with an empty buffer: the sequence
of content deltas yielded for a list of transport chunks, and whether the
`[DONE]` sentinel was seen. -/
def runStream (chunks : List (List Char)) : List (List Char) × Bool :=
  runStreamAux [] chunks

/-- Line-by-line processing of a whole transport text at once: what the
loop does to the single chunk equal to the entire stream. -/
def processAll (s : List Char) : List (List Char) × Bool :=
  runLines (splitChunk s).1

/-! ## Transport bytes

`callOpenAIStream` receives raw `Buffer` chunks and decodes EACH chunk
independently with `chunk.toString()` before appending it to the line
buffer.  Node's UTF-8 decoding replaces invalid or truncated byte
sequences with U+FFFD, so a multi-byte character split across two
transport chunks does not survive re-assembly.  The decoder below models
`Buffer.toString('utf-8')` (WHATWG replacement semantics: per-byte U+FFFD
for stray continuation and invalid lead bytes, one U+FFFD for a sequence
truncated at end of input, invalid continuations reprocessed). -/

/-- The U+FFFD replacement character. -/
def repChar : Char := Char.ofNat 0xFFFD

/-- `Buffer.toString('utf-8')`: decode a byte sequence, substituting
U+FFFD for invalid input. -/
def utf8Decode : List Nat → List Char
  | [] => []
  | b :: rest =>
    if b < 0x80 then Char.ofNat b :: utf8Decode rest
    else if b < 0xC2 then repChar :: utf8Decode rest
    else if b < 0xE0 then
      match rest with
      | [] => [repChar]
      | b2 :: rest2 =>
        if 0x80 ≤ b2 && b2 ≤ 0xBF then
          Char.ofNat ((b - 0xC0) * 64 + (b2 - 0x80)) :: utf8Decode rest2
        else repChar :: utf8Decode (b2 :: rest2)
    else if b < 0xF0 then
      match rest with
      | [] => [repChar]
      | b2 :: rest2 =>
        let lo2 := if b = 0xE0 then 0xA0 else 0x80
        let hi2 := if b = 0xED then 0x9F else 0xBF
        if lo2 ≤ b2 && b2 ≤ hi2 then
          match rest2 with
          | [] => [repChar]
          | b3 :: rest3 =>
            if 0x80 ≤ b3 && b3 ≤ 0xBF then
              Char.ofNat (((b - 0xE0) * 64 + (b2 - 0x80)) * 64 + (b3 - 0x80))
                :: utf8Decode rest3
            else repChar :: utf8Decode (b3 :: rest3)
        else repChar :: utf8Decode (b2 :: rest2)
    else if b < 0xF5 then
      match rest with
      | [] => [repChar]
      | b2 :: rest2 =>
        let lo2 := if b = 0xF0 then 0x90 else 0x80
        let hi2 := if b = 0xF4 then 0x8F else 0xBF
        if lo2 ≤ b2 && b2 ≤ hi2 then
          match rest2 with
          | [] => [repChar]
          | b3 :: rest3 =>
            if 0x80 ≤ b3 && b3 ≤ 0xBF then
              match rest3 with
              | [] => [repChar]
              | b4 :: rest4 =>
                if 0x80 ≤ b4 && b4 ≤ 0xBF then
                  Char.ofNat ((((b - 0xF0) * 64 + (b2 - 0x80)) * 64 + (b3 - 0x80)) * 64
                      + (b4 - 0x80)) :: utf8Decode rest4
                else repChar :: utf8Decode (b4 :: rest4)
            else repChar :: utf8Decode (b3 :: rest3)
        else repChar :: utf8Decode (b2 :: rest2)
    else repChar :: utf8Decode rest

/-- The streaming loop at transport-byte granularity: each `Buffer` chunk
is decoded on its own (`buffer += chunk.toString()`) before entering the
character-level line buffer. -/
def runStreamBytes (chunks : List (List Nat)) : List (List Char) × Bool :=
  runStream (chunks.map utf8Decode)

/-! ## Concrete fixtures used by witnesses and counterexamples -/

/-- The first example frame:
`data: {"choices":[{"delta":{"content":"Hel"}}]}` plus its newline. -/
def frame1 : List Char :=
  "data: \x7b\"choices\":[\x7b\"delta\":\x7b\"content\":\"Hel\"\x7d\x7d]\x7d\n".toList

/-- The second example frame:
`data: {"choices":[{"delta":{"content":"lo"}}]}` plus its newline. -/
def frame2 : List Char :=
  "data: \x7b\"choices\":[\x7b\"delta\":\x7b\"content\":\"lo\"\x7d\x7d]\x7d\n".toList

/-- The terminating example frame: `data: [DONE]` plus its newline. -/
def frame3 : List Char := "data: [DONE]\n".toList

/-- A store state observed mid-stream: streaming with a non-empty buffer. -/
def midStreamState : ChatState :=
  { initialState with isStreaming := true, streamContent := "partial" }

/-- The UTF-8 bytes of an ASCII-only character sequence. -/
def asciiBytes (cs : List Char) : List Nat := cs.map Char.toNat

/-- The bytes of the two example frames. -/
def exampleBytes : List Nat := asciiBytes (frame1 ++ frame2)

/-- Those bytes delivered as a single transport chunk. -/
def byteRechunkA : List (List Nat) := [exampleBytes]

/-- The same bytes delivered as two transport chunks, cut in the middle
of the second frame's JSON payload (but on a character boundary). -/
def byteRechunkB : List (List Nat) :=
  [exampleBytes.take 55, exampleBytes.drop 55]

/-- The ASCII bytes of a frame
`data: {"choices":[{"delta":{"content":"` … up to the content string. -/
def eFramePre : List Nat :=
  asciiBytes "data: \x7b\"choices\":[\x7b\"delta\":\x7b\"content\":\"".toList

/-- The ASCII bytes closing that frame: `"}}]}` plus the newline. -/
def eFramePost : List Nat := asciiBytes "\"\x7d\x7d]\x7d\n".toList

/-- A frame whose content delta is the two-byte character U+00E9 (é,
bytes `0xC3 0xA9`). -/
def eFrameBytes : List Nat := eFramePre ++ [0xC3, 0xA9] ++ eFramePost

/-- That frame delivered as one transport chunk. -/
def eByteChunksOne : List (List Nat) := [eFrameBytes]

/-- The same byte string delivered split between the two bytes of the
multi-byte character. -/
def eByteChunksSplit : List (List Nat) :=
  [eFramePre ++ [0xC3], [0xA9] ++ eFramePost]

theorem foldl_append_init (C : List String) (a b : String) :
    C.foldl (· ++ ·) (a ++ b) = a ++ C.foldl (· ++ ·) b := by
  induction C generalizing b with
  | nil => rfl
  | cons c cs ih =>
    simp only [List.foldl_cons]
    rw [String.append_assoc, ih]

theorem feedChunks_eq (s : ChatState) (C : List String) :
    feedChunks s C = { s with streamContent := s.streamContent ++ concatChunks C } := by
  induction C generalizing s with
  | nil => simp [feedChunks, concatChunks]
  | cons c cs ih =>
    simp only [feedChunks, concatChunks, List.foldl_cons] at *
    rw [ih]
    simp only [appendStreamContent]
    congr 1
    have h : List.foldl (· ++ ·) c cs = c ++ List.foldl (· ++ ·) "" cs := by
      have h0 := foldl_append_init cs c ""
      simpa using h0
    simp only [String.empty_append]
    rw [h, String.append_assoc]

theorem splitChunk_of_noNL (buf : List Char) (h : '\n' ∉ buf) :
    splitChunk buf = ([], buf) := by
  induction buf with
  | nil => rfl
  | cons c rest ih =>
    have hc : c ≠ '\n' := fun hc => h (hc ▸ List.mem_cons_self c rest)
    have hr : '\n' ∉ rest := fun hr => h (List.mem_cons_of_mem c hr)
    simp [splitChunk, ih hr, stepSplit, hc]

theorem splitChunk_snd_noNL (x : List Char) : '\n' ∉ (splitChunk x).2 := by
  induction x with
  | nil => simp [splitChunk]
  | cons c rest ih =>
    simp only [splitChunk, stepSplit]
    by_cases hc : c = '\n'
    · simpa [hc] using ih
    · cases h1 : (splitChunk rest).1 with
      | nil =>
        simp only [hc, if_false, h1]
        intro hmem
        rcases List.mem_cons.mp hmem with h | h
        · exact hc h.symm
        · exact ih h
      | cons l ls => simpa [hc, h1] using ih

theorem stepSplit_combine (c : Char) (p q : List (List Char) × List Char) :
    stepSplit c (combineSplit p q) = combineSplit (stepSplit c p) q := by
  obtain ⟨p1, p2⟩ := p
  obtain ⟨q1, q2⟩ := q
  by_cases hc : c = '\n'
  · subst hc
    cases q1 <;> cases p1 <;> simp [stepSplit, combineSplit]
  · cases q1 <;> cases p1 <;> simp [stepSplit, combineSplit, hc]

theorem splitChunk_append (a b : List Char) :
    splitChunk (a ++ b) = combineSplit (splitChunk a) (splitChunk b) := by
  induction a with
  | nil =>
    cases hq : (splitChunk b).1 <;>
      simp [splitChunk, combineSplit, hq, Prod.ext_iff]
  | cons c a' ih =>
    simp only [List.cons_append, splitChunk, List.append_eq, ih, stepSplit_combine]

theorem splitChunk_first_decomp (a b : List Char) :
    (splitChunk (a ++ b)).1 =
      (splitChunk a).1 ++ (splitChunk ((splitChunk a).2 ++ b)).1 := by
  rw [splitChunk_append a b, splitChunk_append ((splitChunk a).2) b,
      splitChunk_of_noNL _ (splitChunk_snd_noNL a)]
  cases h : (splitChunk b).1 <;> simp [combineSplit, h]

theorem runLines_append (xs ys : List (List Char)) :
    runLines (xs ++ ys) =
      if (runLines xs).2 then runLines xs
      else ((runLines xs).1 ++ (runLines ys).1, (runLines ys).2) := by
  induction xs with
  | nil => simp [runLines]
  | cons l ls ih =>
    cases h : lineResult l <;>
      cases h2 : (runLines ls).2 <;>
        simp_all [runLines]

theorem runStreamAux_eq (chunks : List (List Char)) (buf : List Char)
    (h : '\n' ∉ buf) :
    runStreamAux buf chunks = processAll (buf ++ chunks.flatten) := by
  induction chunks generalizing buf with
  | nil =>
    simp [runStreamAux, processAll, splitChunk_of_noNL buf h, runLines]
  | cons c rest ih =>
    have hdecomp : (splitChunk (buf ++ c ++ rest.flatten)).1 =
        (splitChunk (buf ++ c)).1 ++
          (splitChunk ((splitChunk (buf ++ c)).2 ++ rest.flatten)).1 :=
      splitChunk_first_decomp (buf ++ c) rest.flatten
    have hbuf : '\n' ∉ (splitChunk (buf ++ c)).2 := splitChunk_snd_noNL _
    simp only [runStreamAux, processAll, List.flatten_cons, ← List.append_assoc,
      hdecomp, runLines_append, ih _ hbuf, processAll]
    cases h2 : (runLines (splitChunk (buf ++ c)).1).2 <;> simp [h2, Prod.ext_iff]

theorem runStream_eq_processAll (chunks : List (List Char)) :
    runStream chunks = processAll chunks.flatten := by
  simpa using runStreamAux_eq chunks [] (by simp)

theorem dropDataMarker_some_iff (line rest : List Char) :
    dropDataMarker line = some rest ↔ line = dataMarker ++ rest := by
  constructor
  · intro h
    unfold dropDataMarker at h
    split at h
    · cases h
      rfl
    · cases h
  · intro h
    subst h
    rfl

theorem dropDataMarker_marker (rest : List Char) :
    dropDataMarker (dataMarker ++ rest) = some rest := rfl

/-! ## Claims -/

/-- C1: for every finite chunk sequence `C`, starting a stream, appending
each chunk in order via `appendStreamContent`, then calling
`finishStreaming` commits exactly one new assistant message whose content
is the whitespace-trimmed concatenation of `C`; if that concatenation is
empty or whitespace-only, no message is committed; in either case the
buffer is cleared and the consumer returns to Idle. -/
theorem stream_commit_spec (s : ChatState) (C : List String) :
    (finishStreaming (feedChunks (startStreaming s) C)).streamContent = "" ∧
    (finishStreaming (feedChunks (startStreaming s) C)).isStreaming = false ∧
    (finishStreaming (feedChunks (startStreaming s) C)).messages =
      (if jsTrim (concatChunks C) = "" then s.messages
       else s.messages ++
         [{ content := jsTrim (concatChunks C), type := Role.assistant }]) := by
  rw [feedChunks_eq]
  simp only [startStreaming]
  simp only [finishStreaming, addMessage, String.empty_append]
  split <;> simp_all

/-- C2 counterexample: in the Idle initial state, `appendStreamContent`
does NOT drop the chunk — the buffer changes from `""` to `"x"`. -/
theorem append_idle_not_dropped_cex :
    initialState.isStreaming = false ∧
    ¬ (appendStreamContent "x" initialState).streamContent
        = initialState.streamContent := by
  refine ⟨rfl, ?_⟩
  decide

/-- C2 (amended): `appendStreamContent` while Idle appends the chunk to
the transient buffer (rather than dropping it); the message log is
untouched, the consumer stays Idle, and the buffer is reset by the next
`startStreaming`. -/
theorem append_idle_appends (s : ChatState) (c : String)
    (h : s.isStreaming = false) :
    (appendStreamContent c s).streamContent = s.streamContent ++ c ∧
    (appendStreamContent c s).messages = s.messages ∧
    (appendStreamContent c s).isStreaming = false ∧
    (startStreaming (appendStreamContent c s)).streamContent = "" :=
  ⟨rfl, rfl, h, rfl⟩

/-- C2 witness: the amended statement at the initial state and chunk `"x"`. -/
theorem append_idle_appends_witness :
    (appendStreamContent "x" initialState).streamContent
        = initialState.streamContent ++ "x" ∧
    (appendStreamContent "x" initialState).messages = initialState.messages ∧
    (appendStreamContent "x" initialState).isStreaming = false ∧
    (startStreaming (appendStreamContent "x" initialState)).streamContent = "" :=
  append_idle_appends initialState "x" rfl

/-- C3 counterexample: with a non-empty buffer mid-stream, the error
handler appends TWO messages (the fallback, then the committed partial
buffer), not exactly one. -/
theorem stream_error_two_messages_cex :
    midStreamState.isStreaming = true ∧
    midStreamState.messages = [] ∧
    (handleStreamError midStreamState).messages =
      [{ content := streamErrorText, type := Role.assistant },
       { content := "partial", type := Role.assistant }] ∧
    ¬ (handleStreamError midStreamState).messages.length
        = midStreamState.messages.length + 1 := by
  refine ⟨rfl, rfl, ?_, ?_⟩ <;> decide

/-- C3 (amended): `handleStreamError` while Streaming always returns the
consumer to Idle and appends the fallback assistant message; when the
stream buffer is non-empty after trimming it additionally commits the
trimmed buffer as a second assistant message, so a transition back to
Idle leaves one or two new messages. -/
theorem stream_error_fallback (s : ChatState) (h : s.isStreaming = true) :
    (handleStreamError s).isStreaming = false ∧
    (handleStreamError s).isProcessing = false ∧
    (handleStreamError s).streamContent = "" ∧
    (handleStreamError s).messages =
      (if jsTrim s.streamContent = "" then
        s.messages ++ [{ content := streamErrorText, type := Role.assistant }]
       else
        s.messages ++
          [{ content := streamErrorText, type := Role.assistant },
           { content := jsTrim s.streamContent, type := Role.assistant }]) := by
  simp only [handleStreamError, finishStreaming, addMessage]
  split <;> simp_all

/-- C3 witness: the amended statement at the concrete mid-stream state. -/
theorem stream_error_fallback_witness :
    (handleStreamError midStreamState).isStreaming = false ∧
    (handleStreamError midStreamState).isProcessing = false ∧
    (handleStreamError midStreamState).streamContent = "" ∧
    (handleStreamError midStreamState).messages =
      (if jsTrim midStreamState.streamContent = "" then
        midStreamState.messages ++
          [{ content := streamErrorText, type := Role.assistant }]
       else
        midStreamState.messages ++
          [{ content := streamErrorText, type := Role.assistant },
           { content := jsTrim midStreamState.streamContent,
             type := Role.assistant }]) :=
  stream_error_fallback midStreamState rfl

/-- C8: `appendStreamContent` while Idle never mutates the message log —
every store field other than the transient `streamContent` buffer is left
unchanged (and the modelled action is a total function: it cannot
throw). -/
theorem append_idle_frame (s : ChatState) (c : String)
    (h : s.isStreaming = false) :
    (appendStreamContent c s).messages = s.messages ∧
    (appendStreamContent c s).inputValue = s.inputValue ∧
    (appendStreamContent c s).placeholder = s.placeholder ∧
    (appendStreamContent c s).isStreaming = s.isStreaming ∧
    (appendStreamContent c s).isLoading = s.isLoading ∧
    (appendStreamContent c s).isProcessing = s.isProcessing ∧
    (appendStreamContent c s).currentScreenData = s.currentScreenData ∧
    (appendStreamContent c s).isScreenCaptured = s.isScreenCaptured :=
  ⟨rfl, rfl, rfl, rfl, rfl, rfl, rfl, rfl⟩

/-- C8 witness: the frame condition at the initial state and chunk `"x"`. -/
theorem append_idle_frame_witness :
    (appendStreamContent "x" initialState).messages = initialState.messages ∧
    (appendStreamContent "x" initialState).inputValue = initialState.inputValue ∧
    (appendStreamContent "x" initialState).placeholder = initialState.placeholder ∧
    (appendStreamContent "x" initialState).isStreaming = initialState.isStreaming ∧
    (appendStreamContent "x" initialState).isLoading = initialState.isLoading ∧
    (appendStreamContent "x" initialState).isProcessing = initialState.isProcessing ∧
    (appendStreamContent "x" initialState).currentScreenData
        = initialState.currentScreenData ∧
    (appendStreamContent "x" initialState).isScreenCaptured
        = initialState.isScreenCaptured :=
  append_idle_frame initialState "x" rfl

/-- C5: if an error occurs while `sendMessageStream` is producing its
sequence — also after chunks were already yielded — the caught error adds
exactly one fallback string (the same `getErrorResponse` text the
non-streaming `sendMessage` returns for that failure) and the sequence
ends; no exception reaches the consumer (the modelled generator is a
total function into a plain chunk list). -/
theorem stream_error_yields_one_fallback (svc : LLMService) (msg : String)
    (sd : Option String) (chunks : List String) (e : JsError)
    (h : svc.apiKey ≠ "") :
    sendMessageStream svc msg sd chunks (some e)
        = chunks ++ [getErrorResponse svc e] ∧
    sendMessage svc msg sd (Except.error e) = getErrorResponse svc e := by
  simp [sendMessageStream, sendMessage, h]

/-- C5 witness: a configured service, one yielded chunk, then a failure. -/
theorem stream_error_yields_one_fallback_witness :
    sendMessageStream { apiKey := "k", model := "gpt-4o" } "hi" none ["a"]
        (some { isAxiosError := true, status := some 500, code := none })
      = ["a"] ++ [getErrorResponse { apiKey := "k", model := "gpt-4o" }
          { isAxiosError := true, status := some 500, code := none }] ∧
    sendMessage { apiKey := "k", model := "gpt-4o" } "hi" none
        (Except.error { isAxiosError := true, status := some 500, code := none })
      = getErrorResponse { apiKey := "k", model := "gpt-4o" }
          { isAxiosError := true, status := some 500, code := none } :=
  stream_error_yields_one_fallback _ _ _ _ _ (by decide)

/-- C6: `sendMessage` maps an HTTP 401 failure to the literal
authentication-failure guidance, 429 to the rate-limit guidance, and 404
to the model-not-found guidance, which embeds the configured model name. -/
theorem status_code_fallbacks (svc : LLMService) (msg : String)
    (sd : Option String) (h : svc.apiKey ≠ "") :
    sendMessage svc msg sd
        (Except.error { isAxiosError := true, status := some 401, code := none })
      = "Invalid API key. Please check your OpenAI API key in the environment variables." ∧
    sendMessage svc msg sd
        (Except.error { isAxiosError := true, status := some 429, code := none })
      = "Rate limit exceeded. Please try again in a moment." ∧
    sendMessage svc msg sd
        (Except.error { isAxiosError := true, status := some 404, code := none })
      = "Model \"" ++ svc.model ++ "\" not found. Try using \"gpt-4o\" or \"gpt-4\" instead. Update your OPENAI_MODEL in the .env file." ∧
    (∃ pre post, sendMessage svc msg sd
        (Except.error { isAxiosError := true, status := some 404, code := none })
      = pre ++ svc.model ++ post) := by
  have h404 : sendMessage svc msg sd
      (Except.error { isAxiosError := true, status := some 404, code := none })
      = "Model \"" ++ svc.model ++ "\" not found. Try using \"gpt-4o\" or \"gpt-4\" instead. Update your OPENAI_MODEL in the .env file." := by
    simp [sendMessage, getErrorResponse, h]
  refine ⟨by simp [sendMessage, getErrorResponse, h],
          by simp [sendMessage, getErrorResponse, h],
          h404,
          "Model \"",
          "\" not found. Try using \"gpt-4o\" or \"gpt-4\" instead. Update your OPENAI_MODEL in the .env file.",
          ?_⟩
  rw [h404, String.append_assoc]

/-- C6 witness: the three mappings at a concrete configured service. -/
theorem status_code_fallbacks_witness :
    sendMessage { apiKey := "k", model := "m1" } "q" none
        (Except.error { isAxiosError := true, status := some 401, code := none })
      = "Invalid API key. Please check your OpenAI API key in the environment variables." ∧
    sendMessage { apiKey := "k", model := "m1" } "q" none
        (Except.error { isAxiosError := true, status := some 429, code := none })
      = "Rate limit exceeded. Please try again in a moment." ∧
    sendMessage { apiKey := "k", model := "m1" } "q" none
        (Except.error { isAxiosError := true, status := some 404, code := none })
      = "Model \"" ++ "m1" ++ "\" not found. Try using \"gpt-4o\" or \"gpt-4\" instead. Update your OPENAI_MODEL in the .env file." ∧
    (∃ pre post, sendMessage { apiKey := "k", model := "m1" } "q" none
        (Except.error { isAxiosError := true, status := some 404, code := none })
      = pre ++ "m1" ++ post) :=
  status_code_fallbacks { apiKey := "k", model := "m1" } "q" none (by decide)

set_option maxRecDepth 4000 in
/-- C7 (code bug): the `sendMessage` / `sendMessageStream` bodies do have
a credential-absent branch that skips the network and returns the canned
multi-line guidance — shown below — but the constructor THROWS when the
key is missing (`Except.error` here), so a credential-less `LLMService`
is never constructed and the app crashes at startup instead of staying
usable, contradicting the README ("The app works without an OpenAI API
key and will provide mock responses") and the thrown message's own text. -/
theorem no_credential_behavior (envModel : Option String) (msg : String)
    (outcome : Except JsError OpenAIResponse) :
    LLMService.create none envModel = Except.error noKeyErrorText ∧
    LLMService.create (some "") envModel = Except.error noKeyErrorText ∧
    sendMessage { apiKey := "", model := "gpt-4o" } msg none outcome
      = getMockResponse msg false ∧
    sendMessageStream { apiKey := "", model := "gpt-4o" } msg none [] none
      = [getMockResponse msg false] ∧
    getMockResponse "hello" false
      = "I understand you\x27re asking: \"hello\"\n\nI\x27d be happy to help with that question if I had access to a real LLM API.\n\nTo enable full functionality, please add your OpenAI API key to the environment variables.\n\nYou can copy the env.example file to .env and add your API key there." ∧
    getMockResponse "hello" false ≠ "" := by
  refine ⟨rfl, rfl, by simp [sendMessage], by simp [sendMessageStream], by decide, by decide⟩

/-- C9: both relay requests are `POST {baseURL}/chat/completions` with
body fields `model`, `messages`, `max_tokens: 500`, `temperature: 0.7`, a
bearer-token `Authorization` header and a 30000 ms timeout; the streaming
request additionally sets `stream: true` and differs in nothing else. -/
theorem outbound_request_shape (svc : LLMService) (messages : List OpenAIMessage) :
    (callOpenAIRequest svc messages).url = baseURL ++ "/chat/completions" ∧
    (callOpenAIRequest svc messages).method = "POST" ∧
    (callOpenAIRequest svc messages).bodyModel = svc.model ∧
    (callOpenAIRequest svc messages).bodyMessages = messages ∧
    (callOpenAIRequest svc messages).bodyMaxTokens = 500 ∧
    (callOpenAIRequest svc messages).bodyTemperature = 7 / 10 ∧
    (callOpenAIRequest svc messages).bodyStream = none ∧
    (callOpenAIRequest svc messages).authorizationHeader
        = "Bearer " ++ svc.apiKey ∧
    (callOpenAIRequest svc messages).timeoutMs = 30000 ∧
    (callOpenAIStreamRequest svc messages).bodyStream = some true ∧
    callOpenAIStreamRequest svc messages
        = { callOpenAIRequest svc messages with bodyStream := some true } :=
  ⟨rfl, rfl, rfl, rfl, rfl, rfl, rfl, rfl, rfl, rfl, rfl⟩

/-- C4: line-protocol of the streamed transport.  (i) a line that does not
start with `data: ` is skipped and skipped lines contribute nothing;
(ii) carrying a payload is exactly having the `data: ` marker as prefix;
(iii) the `[DONE]` payload terminates the sequence at once; (iv) a yield
only ever arises from a `data: ` line whose payload parses as JSON with a
non-empty string at `choices[0].delta.content`; (v) a payload that is not
valid JSON is skipped silently; (vi) the three example frames yield
exactly `"Hel"` then `"lo"` and terminate; (vii) those two chunks
finalize to the committed assistant message `"Hello"`. -/
theorem sse_line_protocol :
    (∀ line : List Char, dropDataMarker line = none →
        lineResult line = LineResult.skip) ∧
    (∀ line rest : List Char,
        dropDataMarker line = some rest ↔ line = dataMarker ++ rest) ∧
    (∀ ls, runLines ((dataMarker ++ doneMarker) :: ls) = ([], true)) ∧
    (∀ line s, lineResult line = LineResult.emit s →
        ∃ data j, line = dataMarker ++ data ∧ data ≠ doneMarker ∧
          jsonParse data = some j ∧ chunkContent j = some s ∧ s ≠ []) ∧
    (∀ data : List Char, jsonParse data = none → data ≠ doneMarker →
        lineResult (dataMarker ++ data) = LineResult.skip) ∧
    (∀ l ls, lineResult l = LineResult.skip → runLines (l :: ls) = runLines ls) ∧
    runStream [frame1, frame2, frame3] = (["Hel".toList, "lo".toList], true) ∧
    (finishStreaming (feedChunks (startStreaming initialState) ["Hel", "lo"])).messages
        = [{ content := "Hello", type := Role.assistant }] := by
  refine ⟨?_, dropDataMarker_some_iff, ?_, ?_, ?_, ?_, rfl, by decide⟩
  · intro line h
    simp [lineResult, h]
  · intro ls
    simp [runLines,
      show lineResult (dataMarker ++ doneMarker) = LineResult.done from rfl]
  · intro line s h
    cases hd : dropDataMarker line with
    | none => simp [lineResult, hd] at h
    | some data =>
      have hline : line = dataMarker ++ data :=
        (dropDataMarker_some_iff line data).mp hd
      simp only [lineResult, hd] at h
      by_cases hdone : data = doneMarker
      · simp [hdone] at h
      · simp only [hdone, if_false] at h
        cases hp : jsonParse data with
        | none => simp [hp] at h
        | some j =>
          simp only [hp] at h
          cases hc : chunkContent j with
          | none => simp [hc] at h
          | some s2 =>
            simp only [hc] at h
            by_cases hs : s2 = []
            · simp [hs] at h
            · simp only [hs, if_false] at h
              obtain rfl : s2 = s := by
                injection h
              exact ⟨data, j, hline, hdone, hp, hc, hs⟩
  · intro data hp hdone
    simp [lineResult, dropDataMarker_marker, hdone, hp]
  · intro l ls h
    simp [runLines, h]

/-- C4 witness: a malformed `data: ` payload is skipped. -/
theorem sse_line_protocol_witness :
    lineResult (dataMarker ++ "oops".toList) = LineResult.skip :=
  sse_line_protocol.2.2.2.2.1 "oops".toList rfl (by decide)

/-- C10 counterexample: byte-level re-chunking invariance fails.  The
same byte string — a frame whose content delta is `é` (`0xC3 0xA9`) —
delivered whole yields `[é]`, but delivered split between the two bytes
of the character yields `[U+FFFD, U+FFFD]`, because the loop decodes each
transport chunk independently (`chunk.toString()`). -/
theorem rechunk_byte_invariance_cex :
    eByteChunksOne.flatten = eByteChunksSplit.flatten ∧
    runStreamBytes eByteChunksOne = ([[Char.ofNat 0xE9]], false) ∧
    runStreamBytes eByteChunksSplit = ([[repChar, repChar]], false) ∧
    ¬ runStreamBytes eByteChunksOne = runStreamBytes eByteChunksSplit := by
  refine ⟨by decide, rfl, rfl, by decide⟩

/-- C10 (amended): the delta sequence is invariant under re-chunkings of
the transport byte stream that cut only at character boundaries — i.e.
whenever each chunk list decodes chunk-by-chunk to the decode of its
concatenation, two chunkings of the same byte string produce the same
yields and the same termination status.  (Splitting inside a multi-byte
character is excluded: the per-chunk `chunk.toString()` decode turns it
into U+FFFD replacement characters, as the counterexample shows.) -/
theorem rechunk_invariance_char_boundary (cs1 cs2 : List (List Nat))
    (h1 : (cs1.map utf8Decode).flatten = utf8Decode cs1.flatten)
    (h2 : (cs2.map utf8Decode).flatten = utf8Decode cs2.flatten)
    (hb : cs1.flatten = cs2.flatten) :
    runStreamBytes cs1 = runStreamBytes cs2 := by
  unfold runStreamBytes
  rw [runStream_eq_processAll, runStream_eq_processAll, h1, h2, hb]

/-- C10 witness: the two example frames as one chunk versus cut
mid-payload on a character boundary give the same result. -/
theorem rechunk_invariance_char_boundary_witness :
    (byteRechunkA.map utf8Decode).flatten = utf8Decode byteRechunkA.flatten ∧
    (byteRechunkB.map utf8Decode).flatten = utf8Decode byteRechunkB.flatten ∧
    byteRechunkA.flatten = byteRechunkB.flatten ∧
    runStreamBytes byteRechunkA = runStreamBytes byteRechunkB :=
  ⟨by decide, by decide, by decide,
   rechunk_invariance_char_boundary byteRechunkA byteRechunkB
     (by decide) (by decide) (by decide)⟩

end Cluely
